import Mathlib

/-!
Verification of the health-tracker record-and-gating service.

The repository ships the React frontend (`HistoryView.jsx`, `Register`,
`api.js`) whose logic is embedded below directly from the source.  The
Flask backend modules (`services.py`, `validators.py`, ...) are not in
the tree, so the backend operations (`completeProfile`, `submitEntry`,
`requestSuggestion`) are modelled from the specification, as flagged in
each doc comment.
-/

/-! ## Calendar dates -/

/-- A calendar date without time-of-day, the keying granularity for
daily entries and suggestions (spec §3, Glossary). -/
structure CalDate where
  year : Nat
  month : Nat
  day : Nat
deriving DecidableEq, Repr

/-- Gregorian leap-year rule. -/
def isLeapYear (y : Nat) : Bool :=
  (y % 4 == 0 && y % 100 != 0) || (y % 400 == 0)

/-- Number of days in a month of a given year. -/
def daysInMonth (y m : Nat) : Nat :=
  if m == 2 then (if isLeapYear y then 29 else 28)
  else if m == 4 || m == 6 || m == 9 || m == 11 then 30
  else 31

/-- Whether the fields denote a real Gregorian calendar date. -/
def isRealDate (d : CalDate) : Bool :=
  1 ≤ d.month && d.month ≤ 12 && 1 ≤ d.day && d.day ≤ daysInMonth d.year d.month

/-- Injective numeric key for a calendar date (month ≤ 12 < 16 and
day ≤ 31 < 32, so the packing is order-preserving on real dates). -/
def dateKey (d : CalDate) : Nat :=
  d.year * 512 + d.month * 32 + d.day

/-- Chronological strict order on calendar dates. -/
def dateLt (a b : CalDate) : Bool := dateKey a < dateKey b

/-- The next calendar day, rolling over month and year ends. -/
def nextDay (d : CalDate) : CalDate :=
  if d.day < daysInMonth d.year d.month then ⟨d.year, d.month, d.day + 1⟩
  else if d.month < 12 then ⟨d.year, d.month + 1, 1⟩
  else ⟨d.year + 1, 1, 1⟩

/-! ## Error taxonomy (spec §7) -/

/-- The core's error taxonomy (spec §7); `AuthError`, `ConflictError`
and `StoreError` belong to external collaborators and never arise in
the modelled operations. -/
inductive CoreError where
  | validation (field : String) (reason : String)
  | precondition
  | providerUnavailable
deriving DecidableEq, Repr

/-! ## ProfileStateManager -/

/-- A user's profile document (spec §3): birth date, initial height
(cm) and weight (kg), and the completion flag.  Heights and weights
are modelled as rationals (the spec's "positive reals"). -/
structure Profile where
  birth_date : CalDate
  initial_height : ℚ
  initial_weight : ℚ
  completed : Bool
deriving DecidableEq, Repr

/-- Modelled from the spec: the backend `completeProfile`
(ProfileStateManager, spec §4.1) is not under `src/`.  Validates
birth_date is a real calendar date not later than `today`, then
initial_height ∈ [50, 300], then initial_weight ∈ [20, 500]; fails
with `ValidationError` naming the first failing field in that order;
on success returns the completed profile. -/
def completeProfile (today : CalDate) (birth_date : CalDate)
    (initial_height initial_weight : ℚ) : Except CoreError Profile :=
  if ¬(isRealDate birth_date = true) ∨ dateLt today birth_date = true then
    .error (.validation "birth_date" "must be a real calendar date not in the future")
  else if ¬(50 ≤ initial_height ∧ initial_height ≤ 300) then
    .error (.validation "initial_height" "must be between 50 and 300")
  else if ¬(20 ≤ initial_weight ∧ initial_weight ≤ 500) then
    .error (.validation "initial_weight" "must be between 20 and 500")
  else
    .ok ⟨birth_date, initial_height, initial_weight, true⟩

/-- Modelled from the spec: the profile document store after a
`completeProfile` call — the document is written only on success
(spec §7: validation errors are "always detected before any write"). -/
def completeProfileStore (st : Option Profile) (today birth_date : CalDate)
    (h w : ℚ) : Option Profile :=
  match completeProfile today birth_date h w with
  | .ok p => some p
  | .error _ => st

/-! ## DailyEntryStore -/

/-- A daily health entry (spec §3), keyed by `(user, date)`. -/
structure DailyEntry where
  user : String
  date : CalDate
  height : ℚ
  weight : ℚ
  breakfast : String
  lunch : String
  dinner : String
  created_at : Nat
  updated_at : Nat
deriving DecidableEq, Repr

/-- The DailyEntry collection, one document per `(user, date)` key. -/
abbrev EntryStore : Type := List DailyEntry

/-- Whether an entry sits at the key `(u, d)`. -/
def entryKeyIs (u : String) (d : CalDate) (e : DailyEntry) : Bool :=
  e.user == u && e.date == d

/-- Validation of a `submitEntry` input (spec §4.2): well-formed
calendar date, positive height and weight, non-empty meal texts. -/
def validEntryInput (d : CalDate) (h w : ℚ) (b l dn : String) : Bool :=
  isRealDate d && decide (0 < h) && decide (0 < w) &&
    !(b == "") && !(l == "") && !(dn == "")

/-- Modelled from the spec: the backend `submitEntry`
(DailyEntryStore, spec §4.2) is not under `src/`.  Validates the
input, then upserts at `(u, d)`: if an entry exists its mutable
fields are replaced and `updated_at` refreshed, otherwise a new
record is created with `created_at = updated_at = now`.  Returns the
new store and the stored record. -/
def submitEntry (st : EntryStore) (u : String) (d : CalDate) (h w : ℚ)
    (b l dn : String) (now : Nat) : EntryStore × Except CoreError DailyEntry :=
  if ¬(validEntryInput d h w b l dn = true) then
    (st, .error (.validation "entry" "malformed or out-of-range input"))
  else
    match st.find? (entryKeyIs u d) with
    | some e =>
        let e' : DailyEntry :=
          { e with height := h, weight := w, breakfast := b, lunch := l,
                   dinner := dn, updated_at := now }
        (st.map fun x => if entryKeyIs u d x then e' else x, .ok e')
    | none =>
        let e : DailyEntry := ⟨u, d, h, w, b, l, dn, now, now⟩
        (st ++ [e], .ok e)

/-! ## SuggestionGate -/

/-- A suggestion document (spec §3): the cached generated text, also
serving as the day's rate-limit token. -/
structure SuggestionRecord where
  generated_text : String
  created_at : Nat
deriving DecidableEq, Repr

/-- Outcome of one Generative Text Provider invocation: free text, or
failure/timeout (spec §2, §4.3). -/
inductive ProviderResult where
  | ok (text : String)
  | failure
deriving DecidableEq, Repr

/-- Result of `requestSuggestion`: the text and the
`already_received` flag (spec §4.3). -/
structure SuggestionReply where
  text : String
  already_received : Bool
deriving DecidableEq, Repr

/-- Modelled from the spec: the backend `requestSuggestion`
(SuggestionGate, spec §4.3) is not under `src/`.  `rec` is the
SuggestionRecord document at the `(user, date)` key (a keyed document
store holds at most one document per key), `provider` the outcome the
Generative Text Provider would return if invoked.  Returns the
document after the call, the call's result, and whether the provider
was invoked. -/
def requestSuggestion (completed : Bool) (rec : Option SuggestionRecord)
    (provider : ProviderResult) (now : Nat) :
    Option SuggestionRecord × Except CoreError SuggestionReply × Bool :=
  if ¬(completed = true) then
    (rec, .error .precondition, false)
  else
    match rec with
    | some r => (rec, .ok ⟨r.generated_text, true⟩, false)
    | none =>
        match provider with
        | .failure => (none, .error .providerUnavailable, true)
        | .ok t => (some ⟨t, now⟩, .ok ⟨t, false⟩, true)

/-- Modelled from the spec: the document store's per-key atomic
"create if absent" primitive (spec §2, §4.3) — succeeds only when no
record currently exists at the key. -/
def createIfAbsent (st : Option SuggestionRecord) (r : SuggestionRecord) :
    Option SuggestionRecord × Bool :=
  match st with
  | some _ => (st, false)
  | none => (some r, true)

/-- Modelled from the spec: the serialization point of a concurrent
race (spec §4.3 step 4, §5).  All racing `requestSuggestion` calls
have passed the read-miss and obtained a generated text; their
create-if-absent writes hit the store atomically in the order given
by the list.  Returns the final document and each call's write
outcome, in arrival order. -/
def raceWrites (st : Option SuggestionRecord) :
    List SuggestionRecord → Option SuggestionRecord × List Bool
  | [] => (st, [])
  | r :: rs =>
      let step := createIfAbsent st r
      let rest := raceWrites step.1 rs
      (rest.1, step.2 :: rest.2)

/-- Modelled from the spec: what one racing call returns (spec §4.3
step 4): the winner returns its own text with
`already_received = false`; a loser discards its text, re-reads the
winning record and returns its text with `already_received = true`.
`final` is the settled document (the store never changes after the
first successful write, so the loser's re-read sees it). -/
def raceReply (final : Option SuggestionRecord) (r : SuggestionRecord)
    (won : Bool) : SuggestionReply :=
  if won then ⟨r.generated_text, false⟩
  else ⟨(final.getD r).generated_text, true⟩

/-! ## Frontend: HistoryView (`src/frontend/src/components/HistoryView.jsx`)

The JSX keeps fetched entries in component state and derives
`filteredAndSortedEntries`, `currentEntries` and `totalPages` from
them.  Entry dates are ISO `YYYY-MM-DD` strings in the JSX; comparing
them through `new Date` and filtering by a (full-date) value of the
date input correspond to chronological comparison and equality of the
parsed calendar dates, which is how they are embedded here. -/

/-- An entry row as fetched by `HistoryView`. -/
structure FEntry where
  date : CalDate
  height : ℚ
  weight : ℚ
  breakfast : String
  lunch : String
  dinner : String
deriving DecidableEq, Repr

/-- The three sortable columns offered by the view. -/
inductive SortField where
  | date
  | height
  | weight
deriving DecidableEq, Repr

/-- `aValue > bValue` of the JSX comparator (dates via `new Date`). -/
def fieldGt (f : SortField) (a b : FEntry) : Bool :=
  match f with
  | .date => dateKey b.date < dateKey a.date
  | .height => b.height < a.height
  | .weight => b.weight < a.weight

/-- `aValue < bValue` of the JSX comparator. -/
def fieldLtv (f : SortField) (a b : FEntry) : Bool :=
  match f with
  | .date => dateKey a.date < dateKey b.date
  | .height => a.height < b.height
  | .weight => a.weight < b.weight

/-- The comparator passed to `Array.prototype.sort`: ascending order
returns `aValue > bValue ? 1 : -1`, descending `aValue < bValue ? 1 : -1`
(`HistoryView.jsx` lines 68–82).  Note it never returns 0. -/
def historyCmp (f : SortField) (asc : Bool) (a b : FEntry) : Int :=
  if asc then (if fieldGt f a b then 1 else -1)
  else (if fieldLtv f a b then 1 else -1)

/-- `historyCmp f asc a b ≤ 0`: the comparator does not direct `a` to
come strictly after `b`.  Because the comparator never returns 0, a
tied pair satisfies this in both argument orders; a list `Sorted`
under this relation is one with no strictly inverted pair, which
says nothing about the relative order of ties. -/
def histRel (f : SortField) (asc : Bool) (a b : FEntry) : Prop :=
  historyCmp f asc a b ≤ 0

instance (f : SortField) (asc : Bool) : DecidableRel (histRel f asc) :=
  fun a b => inferInstanceAs (Decidable (historyCmp f asc a b ≤ 0))

/-- `entry.date && entry.date.includes(dateFilter)` with the filter
value coming from the view's date input (a full ISO date), i.e. the
entry's date equals the filter date; an unset filter matches all. -/
def matchesDateFilter (flt : Option CalDate) (e : FEntry) : Bool :=
  match flt with
  | none => true
  | some d => e.date == d

/-- Two entries tie on the compared column: the comparator returns
−1 in both argument orders for such a pair, so it is not a consistent
comparison function on any list containing one. -/
def cmpTies (f : SortField) (a b : FEntry) : Bool :=
  !(fieldGt f a b) && !(fieldLtv f a b)

/-- `filteredAndSortedEntries` (`HistoryView.jsx` lines 63–82): the
fetched entries are filtered by the date filter and sorted with the
comparator.  The comparator never returns 0, so on a tied pair it
answers −1 in both argument orders; such a comparator is not a
consistent comparison function, for which ECMAScript
(`Array.prototype.sort`) leaves the resulting order
implementation-defined — and engines do differ on ties (V8's TimSort
reverses tied runs, a stable merge keeps fetch order).  The embedding
is therefore a relation on outputs, holding of every list a
conforming engine may produce: a permutation of the filtered entries
with no pair strictly inverted on the compared column (pairs the
comparator orders strictly — negative one way, positive the other —
are ordered alike by every engine); the relative order of tied
entries is unconstrained. -/
def filteredAndSortedOutcome (entries : List FEntry) (flt : Option CalDate)
    (f : SortField) (asc : Bool) (output : List FEntry) : Prop :=
  List.Perm output (entries.filter (matchesDateFilter flt)) ∧
    List.Sorted (histRel f asc) output

instance (entries : List FEntry) (flt : Option CalDate) (f : SortField)
    (asc : Bool) (output : List FEntry) :
    Decidable (filteredAndSortedOutcome entries flt f asc output) := by
  unfold filteredAndSortedOutcome
  infer_instance

/-- Ties on the sort field appear in date-ascending order — the tie
clause of the spec's `listEntries` contract. -/
def tiesByDateAsc (f : SortField) (l : List FEntry) : Prop :=
  l.Pairwise fun a b =>
    fieldLtv f a b = false → fieldGt f a b = false →
      dateKey a.date ≤ dateKey b.date

instance (f : SortField) (l : List FEntry) : Decidable (tiesByDateAsc f l) :=
  inferInstanceAs (Decidable (l.Pairwise _))

/-- `entriesPerPage` (`HistoryView.jsx` line 8). -/
def entriesPerPage : Nat := 10

/-- `indexOfLastEntry = currentPage * entriesPerPage` (line 84). -/
def indexOfLastEntry (page : Nat) : Nat := page * entriesPerPage

/-- `indexOfFirstEntry = indexOfLastEntry - entriesPerPage` (line 85);
the view keeps `currentPage ≥ 1`, where the JS and the truncated Nat
subtraction agree. -/
def indexOfFirstEntry (page : Nat) : Nat := indexOfLastEntry page - entriesPerPage

/-- `currentEntries = filteredAndSortedEntries.slice(first, last)`
(lines 86–89); `slice(i, j)` keeps indices `i ≤ k < j`. -/
def currentEntries (l : List FEntry) (page : Nat) : List FEntry :=
  (l.take (indexOfLastEntry page)).drop (indexOfFirstEntry page)

/-- `totalPages = Math.ceil(length / entriesPerPage)` (lines 90–92). -/
def totalPages (l : List FEntry) : Nat :=
  (l.length + entriesPerPage - 1) / entriesPerPage

/-! ## Frontend: Register form validation (`components/Register.jsx`) -/

/-- The registration form state. -/
structure RegForm where
  email : String
  username : String
  password : String
  confirmPassword : String
deriving DecidableEq, Repr

/-- `email.includes("@")`: the one-character needle occurs in the
string exactly when the character occurs among its characters. -/
def emailHasAt (s : String) : Bool :=
  s.data.contains '@'

/-- `validateForm` (`Register.jsx` lines 21–35): returns the error
message set for the first violated check, or `none` when the form is
valid. -/
def validateForm (f : RegForm) : Option String :=
  if ¬(f.password = f.confirmPassword) then
    some "Password confirmation does not match"
  else if f.password.length < 6 then
    some "Password must be at least 6 characters long"
  else if ¬(emailHasAt f.email = true) then
    some "Please enter a valid email address"
  else none

/-- `handleSubmit` reaches the `fetch` call iff `validateForm`
returned true, i.e. set no error (`Register.jsx` lines 37–58). -/
def registerSubmits (f : RegForm) : Bool :=
  (validateForm f).isNone

/-! ## Frontend: `apiRequest` retry loop (`src/frontend/src/config/api.js`) -/

/-- `RETRY_ATTEMPTS` of `API_CONFIG`. -/
def RETRY_ATTEMPTS : Nat := 3

/-- `TIMEOUT` of `API_CONFIG`, in milliseconds. -/
def TIMEOUT : Nat := 10000

/-- `config.timeout` after `{...defaultOptions, ...options}`: the
caller's timeout when supplied, else the configured `TIMEOUT`; this
value is handed to the abort timer of every attempt. -/
def configTimeout (optionsTimeout : Option Nat) : Nat :=
  optionsTimeout.getD TIMEOUT

/-- A thrown fetch error as `apiRequest` inspects it: its `name` and
its `status` field when one is present. -/
structure JsError where
  name : String
  status : Option Nat
deriving DecidableEq, Repr

/-- `error.name === "AbortError" || (error.status >= 400 && error.status < 500)`:
the errors `apiRequest` rethrows without retrying. -/
def isImmediateError (e : JsError) : Bool :=
  e.name == "AbortError" ||
    (match e.status with
     | some s => 400 ≤ s && s < 500
     | none => false)

/-- What one `fetch` attempt does: resolve to a response (an opaque
identifier) or throw an error. -/
inductive FetchOutcome where
  | success (resp : Nat)
  | failure (e : JsError)
deriving DecidableEq, Repr

/-- The retry loop of `apiRequest` (`api.js` lines 46–82).
`outcomes k` is what the `k`-th `fetch` call (1-based) would do;
`fuel` is the number of attempts still allowed.  Returns the
result (returned response or thrown error) and how many attempts
were performed. -/
def apiLoop (outcomes : Nat → FetchOutcome) :
    Nat → Nat → Option JsError → (Except JsError Nat × Nat)
  | 0, _, last => (.error (last.getD ⟨"", none⟩), 0)
  | fuel + 1, k, _ =>
      match outcomes k with
      | .success r => (.ok r, 1)
      | .failure e =>
          if isImmediateError e then (.error e, 1)
          else if fuel = 0 then (.error e, 1)
          else
            let rest := apiLoop outcomes fuel (k + 1) (some e)
            (rest.1, rest.2 + 1)

/-- `apiRequest` as observed through its fetch attempts: runs the loop
with `RETRY_ATTEMPTS` fuel starting at attempt 1. -/
def apiRequest (outcomes : Nat → FetchOutcome) : Except JsError Nat × Nat :=
  apiLoop outcomes RETRY_ATTEMPTS 1 none

/-! ## Theorems -/

lemma daysInMonth_le_31 (y m : Nat) : daysInMonth y m ≤ 31 := by
  unfold daysInMonth
  split_ifs <;> omega

lemma dateLt_nextDay (d : CalDate) (hd : isRealDate d = true) :
    dateLt d (nextDay d) = true := by
  have h31 : daysInMonth d.year d.month ≤ 31 := daysInMonth_le_31 d.year d.month
  simp only [isRealDate, Bool.and_eq_true, decide_eq_true_eq] at hd
  obtain ⟨⟨⟨h1, h2⟩, h3⟩, h4⟩ := hd
  unfold nextDay dateLt dateKey
  split_ifs with hA hB <;> simp only [decide_eq_true_eq] <;> omega

/-- C5: any violated constraint makes `completeProfile` fail with a
`ValidationError` naming the first failing field in the order
birth_date, height, weight, and nothing is written; in particular an
initial height of 10 (with a valid birth date) blames
`initial_height`, and a birth date one day in the future blames
`birth_date`. -/
theorem completeProfile_first_failing_field (st : Option Profile)
    (today bd : CalDate) (h w : ℚ) :
    ((¬(isRealDate bd = true) ∨ dateLt today bd = true) →
        completeProfile today bd h w =
          .error (.validation "birth_date" "must be a real calendar date not in the future") ∧
        completeProfileStore st today bd h w = st)
    ∧ (isRealDate bd = true → dateLt today bd = false → ¬(50 ≤ h ∧ h ≤ 300) →
        completeProfile today bd h w =
          .error (.validation "initial_height" "must be between 50 and 300") ∧
        completeProfileStore st today bd h w = st)
    ∧ (isRealDate bd = true → dateLt today bd = false →
        (50 ≤ h ∧ h ≤ 300) → ¬(20 ≤ w ∧ w ≤ 500) →
        completeProfile today bd h w =
          .error (.validation "initial_weight" "must be between 20 and 500") ∧
        completeProfileStore st today bd h w = st)
    ∧ (isRealDate bd = true → dateLt today bd = false → h = 10 →
        completeProfile today bd h w =
          .error (.validation "initial_height" "must be between 50 and 300"))
    ∧ (isRealDate today = true → bd = nextDay today →
        completeProfile today bd h w =
          .error (.validation "birth_date" "must be a real calendar date not in the future")) := by
  refine ⟨?_, ?_, ?_, ?_, ?_⟩
  · intro hbd
    have he : completeProfile today bd h w =
        .error (.validation "birth_date" "must be a real calendar date not in the future") := by
      unfold completeProfile
      rw [if_pos hbd]
    exact ⟨he, by simp [completeProfileStore, he]⟩
  · intro hbd hlt hh
    have he : completeProfile today bd h w =
        .error (.validation "initial_height" "must be between 50 and 300") := by
      unfold completeProfile
      rw [if_neg (by simp [hbd, hlt]), if_pos hh]
    exact ⟨he, by simp [completeProfileStore, he]⟩
  · intro hbd hlt hh hw
    have he : completeProfile today bd h w =
        .error (.validation "initial_weight" "must be between 20 and 500") := by
      unfold completeProfile
      rw [if_neg (by simp [hbd, hlt]), if_neg (by simpa using hh), if_pos hw]
    exact ⟨he, by simp [completeProfileStore, he]⟩
  · intro hbd hlt hh
    subst hh
    have hno : ¬((50 : ℚ) ≤ 10 ∧ (10 : ℚ) ≤ 300) := by
      rintro ⟨hc, -⟩
      norm_num at hc
    unfold completeProfile
    rw [if_neg (by simp [hbd, hlt]), if_pos hno]
  · intro htoday hbd
    subst hbd
    unfold completeProfile
    rw [if_pos (Or.inr (dateLt_nextDay today htoday))]

/-- C5 witness: concrete instances of the two boundary cases. -/
theorem completeProfile_first_failing_field_witness :
    completeProfile ⟨2024, 6, 1⟩ ⟨1990, 5, 17⟩ 10 65 =
      .error (.validation "initial_height" "must be between 50 and 300")
    ∧ completeProfile ⟨2024, 6, 1⟩ (nextDay ⟨2024, 6, 1⟩) 170 65 =
      .error (.validation "birth_date" "must be a real calendar date not in the future") := by
  constructor
  · exact (completeProfile_first_failing_field none ⟨2024, 6, 1⟩ ⟨1990, 5, 17⟩ 10 65).2.2.2.1
      (by rfl) (by rfl) rfl
  · exact (completeProfile_first_failing_field none ⟨2024, 6, 1⟩ (nextDay ⟨2024, 6, 1⟩)
      170 65).2.2.2.2 (by rfl) rfl

/-- C7: with an incomplete profile `requestSuggestion` fails with
`PreconditionError`, writes nothing and never reaches the provider;
with a completed profile it never fails with `PreconditionError`. -/
theorem requestSuggestion_profile_gate (rec : Option SuggestionRecord)
    (p : ProviderResult) (now : Nat) :
    requestSuggestion false rec p now = (rec, .error .precondition, false)
    ∧ (requestSuggestion true rec p now).2.1 ≠ .error .precondition := by
  constructor
  · simp [requestSuggestion]
  · cases rec <;> cases p <;> simp [requestSuggestion]

/-- C7 witness: the gate at a concrete store and provider outcome. -/
theorem requestSuggestion_profile_gate_witness :
    requestSuggestion false none (.ok "walk more") 7 =
      (none, .error .precondition, false)
    ∧ (requestSuggestion true none (.ok "walk more") 7).2.1 ≠
        .error .precondition :=
  ⟨(requestSuggestion_profile_gate none (.ok "walk more") 7).1,
    (requestSuggestion_profile_gate none (.ok "walk more") 7).2⟩

/-- C2: if a record exists, `requestSuggestion` returns its stored
text with `already_received = true` without invoking the provider;
and after any successful call, a second call on the same key returns
the same text with `already_received = true`, the provider being
invoked at most once across both calls. -/
theorem requestSuggestion_idempotent (st : Option SuggestionRecord)
    (p₁ p₂ : ProviderResult) (t₁ t₂ : Nat) :
    (∀ r, requestSuggestion true (some r) p₁ t₁ =
        (some r, .ok ⟨r.generated_text, true⟩, false))
    ∧ (∀ x b, (requestSuggestion true st p₁ t₁).2.1 = .ok ⟨x, b⟩ →
        (requestSuggestion true (requestSuggestion true st p₁ t₁).1 p₂ t₂).2.1 =
          .ok ⟨x, true⟩
        ∧ (requestSuggestion true st p₁ t₁).2.2.toNat +
            (requestSuggestion true (requestSuggestion true st p₁ t₁).1 p₂ t₂).2.2.toNat ≤ 1) := by
  constructor
  · intro r
    simp [requestSuggestion]
  · intro x b hok
    cases st with
    | some r =>
        simp only [requestSuggestion] at hok ⊢
        simp at hok ⊢
        exact hok.1
    | none =>
        cases p₁ with
        | failure => simp [requestSuggestion] at hok
        | ok t =>
            simp only [requestSuggestion] at hok ⊢
            simp at hok ⊢
            exact hok.1

/-- C2 witness: a concrete first call that generates, then a second
call that hits the cache. -/
theorem requestSuggestion_idempotent_witness :
    (requestSuggestion true none (.ok "eat greens") 3).2.1 =
      .ok ⟨"eat greens", false⟩
    ∧ (requestSuggestion true (requestSuggestion true none (.ok "eat greens") 3).1
        .failure 4).2.1 = .ok ⟨"eat greens", true⟩ := by
  refine ⟨by rfl, ?_⟩
  exact ((requestSuggestion_idempotent none (.ok "eat greens") .failure 3 4).2
    "eat greens" false (by rfl)).1

/-- C3: a provider failure fails the call with
`ProviderUnavailableError`, writes no record (the key stays empty),
and a subsequent call the same day still attempts generation. -/
theorem requestSuggestion_failure_no_write (t₁ t₂ : Nat) (p₂ : ProviderResult) :
    requestSuggestion true none .failure t₁ =
      (none, .error .providerUnavailable, true)
    ∧ (requestSuggestion true (requestSuggestion true none .failure t₁).1 p₂ t₂).2.2 =
        true := by
  refine ⟨by simp [requestSuggestion], ?_⟩
  cases p₂ <;> simp [requestSuggestion]

/-- Once a record is settled, later create-if-absent writes are all
rejected and the store never changes (spec §4.3 step 4). -/
lemma raceWrites_settled (r : SuggestionRecord) (rs : List SuggestionRecord) :
    raceWrites (some r) rs = (some r, rs.map fun _ => false) := by
  induction rs with
  | nil => rfl
  | cons a t ih => simp [raceWrites, createIfAbsent, ih]

/-- C1: in a race of N ≥ 1 concurrent `requestSuggestion` calls that
all reached the provider (their writes arriving in the given order),
the first write is the only one persisted, at most one record exists
at the key, and every call's reply carries the persisted text. -/
theorem suggestion_race_convergence (first : SuggestionRecord)
    (rest : List SuggestionRecord) :
    raceWrites none (first :: rest) = (some first, true :: rest.map fun _ => false)
    ∧ ((raceWrites none (first :: rest)).2.count true = 1)
    ∧ List.Forall₂
        (fun r w => (raceReply (raceWrites none (first :: rest)).1 r w).text =
          first.generated_text)
        (first :: rest) (raceWrites none (first :: rest)).2 := by
  have hrun : raceWrites none (first :: rest) =
      (some first, true :: rest.map fun _ => false) := by
    simp [raceWrites, createIfAbsent, raceWrites_settled]
  refine ⟨hrun, ?_, ?_⟩
  · rw [hrun]
    simp [List.count_cons, List.count_eq_zero]
  · rw [hrun]
    constructor
    · simp [raceReply]
    · rw [List.forall₂_map_right_iff]
      rw [List.forall₂_same]
      intro x hx
      simp [raceReply]

/-- A key with no document makes `find?` miss. -/
lemma find?_entryKey_eq_none (st : EntryStore) (u : String) (d : CalDate)
    (hst : ∀ x ∈ st, entryKeyIs u d x = false) :
    st.find? (entryKeyIs u d) = none := by
  induction st with
  | nil => rfl
  | cons a t ih =>
      rw [List.find?_cons, hst a (by simp)]
      exact ih fun x hx => hst x (by simp [hx])

/-- `find?` skips a block of non-matching documents. -/
lemma find?_entryKey_append (st : EntryStore) (l₂ : EntryStore) (u : String)
    (d : CalDate) (hst : ∀ x ∈ st, entryKeyIs u d x = false) :
    (st ++ l₂).find? (entryKeyIs u d) = l₂.find? (entryKeyIs u d) := by
  induction st with
  | nil => rfl
  | cons a t ih =>
      rw [List.cons_append, List.find?_cons, hst a (by simp)]
      exact ih fun x hx => hst x (by simp [hx])

/-- Replacing the document at a key leaves non-matching documents as
they are. -/
lemma map_replace_no_match (st : EntryStore) (u : String) (d : CalDate)
    (e' : DailyEntry) (hst : ∀ x ∈ st, entryKeyIs u d x = false) :
    (st.map fun x => if entryKeyIs u d x then e' else x) = st := by
  induction st with
  | nil => rfl
  | cons a t ih =>
      simp only [List.map_cons, hst a (by simp), Bool.false_eq_true, if_false,
        List.cons.injEq, true_and]
      exact ih fun x hx => hst x (by simp [hx])

/-- An entry always matches its own key. -/
lemma entryKeyIs_self (u : String) (d : CalDate) (h w : ℚ) (b l dn : String)
    (c up : Nat) :
    entryKeyIs u d ⟨u, d, h, w, b, l, dn, c, up⟩ = true := by
  simp [entryKeyIs]

/-- C4: starting from a store with no document at `(u, d)`, two valid
`submitEntry` calls for that date leave exactly one DailyEntry at the
key; its mutable fields and `updated_at` come from the second call
while `created_at` keeps the first call's timestamp. -/
theorem submitEntry_idempotent_upsert (st : EntryStore) (u : String) (d : CalDate)
    (h₁ w₁ : ℚ) (b₁ l₁ dn₁ : String) (now₁ : Nat)
    (h₂ w₂ : ℚ) (b₂ l₂ dn₂ : String) (now₂ : Nat)
    (hfresh : st.countP (entryKeyIs u d) = 0)
    (hv₁ : validEntryInput d h₁ w₁ b₁ l₁ dn₁ = true)
    (hv₂ : validEntryInput d h₂ w₂ b₂ l₂ dn₂ = true) :
    (submitEntry (submitEntry st u d h₁ w₁ b₁ l₁ dn₁ now₁).1 u d h₂ w₂ b₂ l₂ dn₂ now₂).1.countP
        (entryKeyIs u d) = 1
    ∧ (submitEntry (submitEntry st u d h₁ w₁ b₁ l₁ dn₁ now₁).1 u d h₂ w₂ b₂ l₂ dn₂ now₂).2 =
        .ok ⟨u, d, h₂, w₂, b₂, l₂, dn₂, now₁, now₂⟩
    ∧ ∀ e ∈ (submitEntry (submitEntry st u d h₁ w₁ b₁ l₁ dn₁ now₁).1 u d h₂ w₂ b₂ l₂ dn₂ now₂).1,
        entryKeyIs u d e = true → e = ⟨u, d, h₂, w₂, b₂, l₂, dn₂, now₁, now₂⟩ := by
  have hnm : ∀ x ∈ st, entryKeyIs u d x = false := by
    intro x hx
    have := (List.countP_eq_zero.mp hfresh) x hx
    simpa using this
  have hfind : st.find? (entryKeyIs u d) = none := find?_entryKey_eq_none st u d hnm
  have hstep1 : submitEntry st u d h₁ w₁ b₁ l₁ dn₁ now₁ =
      (st ++ [⟨u, d, h₁, w₁, b₁, l₁, dn₁, now₁, now₁⟩],
        .ok ⟨u, d, h₁, w₁, b₁, l₁, dn₁, now₁, now₁⟩) := by
    unfold submitEntry
    rw [if_neg (fun hc => hc hv₁), hfind]
  have hfind2 : (st ++ [(⟨u, d, h₁, w₁, b₁, l₁, dn₁, now₁, now₁⟩ : DailyEntry)]).find?
      (entryKeyIs u d) = some ⟨u, d, h₁, w₁, b₁, l₁, dn₁, now₁, now₁⟩ := by
    rw [find?_entryKey_append st [(⟨u, d, h₁, w₁, b₁, l₁, dn₁, now₁, now₁⟩ : DailyEntry)] u d hnm]
    simp [List.find?_cons, entryKeyIs]
  have hstep2 : submitEntry (submitEntry st u d h₁ w₁ b₁ l₁ dn₁ now₁).1 u d
      h₂ w₂ b₂ l₂ dn₂ now₂ =
      (st ++ [⟨u, d, h₂, w₂, b₂, l₂, dn₂, now₁, now₂⟩],
        .ok ⟨u, d, h₂, w₂, b₂, l₂, dn₂, now₁, now₂⟩) := by
    rw [hstep1]
    unfold submitEntry
    rw [if_neg (fun hc => hc hv₂), hfind2]
    simp only [List.map_append, map_replace_no_match st u d _ hnm, List.map_cons,
      entryKeyIs_self, if_pos, List.map_nil]
  refine ⟨?_, ?_, ?_⟩
  · rw [hstep2]
    rw [List.countP_append]
    simp [hfresh, List.countP_cons, entryKeyIs_self]
  · rw [hstep2]
  · rw [hstep2]
    intro e he hkey
    rcases List.mem_append.mp he with hmem | hmem
    · rw [hnm e hmem] at hkey
      cases hkey
    · simpa using hmem

/-- C4 witness: the spec §8 scenario, user "u1" resubmitting
2024-01-01 with new values. -/
theorem submitEntry_idempotent_upsert_witness :
    (([] : EntryStore).countP (entryKeyIs "u1" ⟨2024, 1, 1⟩) = 0
      ∧ validEntryInput ⟨2024, 1, 1⟩ 170 65 "oatmeal" "salad" "soup" = true)
    ∧ (submitEntry (submitEntry [] "u1" ⟨2024, 1, 1⟩ 170 65 "oatmeal" "salad" "soup" 5).1
        "u1" ⟨2024, 1, 1⟩ 171 66 "eggs" "rice" "stew" 9).2 =
        .ok ⟨"u1", ⟨2024, 1, 1⟩, 171, 66, "eggs", "rice", "stew", 5, 9⟩ := by
  refine ⟨⟨by rfl, by rfl⟩, ?_⟩
  exact (submitEntry_idempotent_upsert [] "u1" ⟨2024, 1, 1⟩ 170 65 "oatmeal" "salad"
    "soup" 5 171 66 "eggs" "rice" "stew" 9 (by rfl) (by rfl) (by rfl)).2.1

/-- C8: `apiRequest` performs at most `RETRY_ATTEMPTS` (3) fetch
attempts, each with the configured 10-second abort timer; an
`AbortError` or an error with a 4xx status is rethrown immediately
with no further attempt; a success is returned immediately; and when
every attempt fails, the last error is thrown. -/
theorem apiRequest_retry_policy (outcomes : Nat → FetchOutcome) :
    (apiRequest outcomes).2 ≤ RETRY_ATTEMPTS
    ∧ (∀ r, outcomes 1 = .success r → apiRequest outcomes = (.ok r, 1))
    ∧ (∀ e, outcomes 1 = .failure e → isImmediateError e = true →
        apiRequest outcomes = (.error e, 1))
    ∧ (∀ e₁ e₂, outcomes 1 = .failure e₁ → isImmediateError e₁ = false →
        outcomes 2 = .failure e₂ → isImmediateError e₂ = true →
        apiRequest outcomes = (.error e₂, 2))
    ∧ (∀ e₁ e₂ e₃, outcomes 1 = .failure e₁ → isImmediateError e₁ = false →
        outcomes 2 = .failure e₂ → isImmediateError e₂ = false →
        outcomes 3 = .failure e₃ →
        apiRequest outcomes = (.error e₃, 3))
    ∧ configTimeout none = TIMEOUT ∧ TIMEOUT = 10000 := by
  refine ⟨?_, ?_, ?_, ?_, ?_, rfl, rfl⟩
  · rcases h1 : outcomes 1 with r | e1
    · simp [apiRequest, RETRY_ATTEMPTS, apiLoop, h1]
    · rcases h2 : outcomes 2 with r | e2
      · by_cases hi1 : isImmediateError e1 <;>
          simp [apiRequest, RETRY_ATTEMPTS, apiLoop, h1, h2, hi1]
      · rcases h3 : outcomes 3 with r | e3 <;>
          by_cases hi1 : isImmediateError e1 <;>
          by_cases hi2 : isImmediateError e2 <;>
          simp [apiRequest, RETRY_ATTEMPTS, apiLoop, h1, h2, h3, hi1, hi2]
  · intro r h1
    simp [apiRequest, RETRY_ATTEMPTS, apiLoop, h1]
  · intro e h1 hi1
    simp [apiRequest, RETRY_ATTEMPTS, apiLoop, h1, hi1]
  · intro e₁ e₂ h1 hi1 h2 hi2
    simp [apiRequest, RETRY_ATTEMPTS, apiLoop, h1, hi1, h2, hi2]
  · intro e₁ e₂ e₃ h1 hi1 h2 hi2 h3
    by_cases hi3 : isImmediateError e₃ <;>
      simp [apiRequest, RETRY_ATTEMPTS, apiLoop, h1, hi1, h2, hi2, h3, hi3]

/-- C8 witness: three network failures in a row exhaust the attempts
and the last error is thrown. -/
theorem apiRequest_retry_policy_witness :
    apiRequest (fun _ => .failure ⟨"TypeError", none⟩) =
      (.error ⟨"TypeError", none⟩, 3)
    ∧ apiRequest (fun _ => .failure ⟨"AbortError", none⟩) =
      (.error ⟨"AbortError", none⟩, 1) := by
  constructor
  · exact (apiRequest_retry_policy (fun _ => .failure ⟨"TypeError", none⟩)).2.2.2.2.1
      ⟨"TypeError", none⟩ ⟨"TypeError", none⟩ ⟨"TypeError", none⟩
      rfl (by rfl) rfl (by rfl) rfl
  · exact (apiRequest_retry_policy (fun _ => .failure ⟨"AbortError", none⟩)).2.2.1
      ⟨"AbortError", none⟩ rfl (by rfl)


/-- C9: the Register component sends the request exactly when the
password matches its confirmation, has at least 6 characters and the
email contains "@"; the checks run in that order and the first
violated one's message is shown, with no request sent. -/
theorem register_validateForm_gate (f : RegForm) :
    (registerSubmits f = true ↔
      (f.password = f.confirmPassword ∧ 6 ≤ f.password.length ∧
        emailHasAt f.email = true))
    ∧ (f.password ≠ f.confirmPassword →
        validateForm f = some "Password confirmation does not match" ∧
        registerSubmits f = false)
    ∧ (f.password = f.confirmPassword → f.password.length < 6 →
        validateForm f = some "Password must be at least 6 characters long" ∧
        registerSubmits f = false)
    ∧ (f.password = f.confirmPassword → 6 ≤ f.password.length →
        emailHasAt f.email = false →
        validateForm f = some "Please enter a valid email address" ∧
        registerSubmits f = false) := by
  refine ⟨?_, ?_, ?_, ?_⟩
  · by_cases h1 : f.password = f.confirmPassword
    · by_cases h2 : f.password.length < 6
      · have hv : validateForm f = some "Password must be at least 6 characters long" := by
          unfold validateForm
          rw [if_neg (not_not.mpr h1), if_pos h2]
        simp only [registerSubmits, hv, Option.isNone_some, Bool.false_eq_true, false_iff]
        rintro ⟨-, hb, -⟩
        omega
      · by_cases h3 : emailHasAt f.email = true
        · have hv : validateForm f = none := by
            unfold validateForm
            rw [if_neg (not_not.mpr h1), if_neg h2, if_neg (not_not.mpr h3)]
          simp only [registerSubmits, hv, Option.isNone_none, true_iff]
          exact ⟨h1, by omega, h3⟩
        · have hv : validateForm f = some "Please enter a valid email address" := by
            unfold validateForm
            rw [if_neg (not_not.mpr h1), if_neg h2, if_pos h3]
          simp only [registerSubmits, hv, Option.isNone_some, Bool.false_eq_true, false_iff]
          rintro ⟨-, -, hc⟩
          exact h3 hc
    · have hv : validateForm f = some "Password confirmation does not match" := by
        unfold validateForm
        rw [if_pos h1]
      simp only [registerSubmits, hv, Option.isNone_some, Bool.false_eq_true, false_iff]
      rintro ⟨ha, -, -⟩
      exact h1 ha
  · intro hne
    have hv : validateForm f = some "Password confirmation does not match" := by
      unfold validateForm
      rw [if_pos hne]
    exact ⟨hv, by simp [registerSubmits, hv]⟩
  · intro heq hlen
    have hv : validateForm f = some "Password must be at least 6 characters long" := by
      unfold validateForm
      rw [if_neg (not_not.mpr heq), if_pos hlen]
    exact ⟨hv, by simp [registerSubmits, hv]⟩
  · intro heq hlen hat
    have hv : validateForm f = some "Please enter a valid email address" := by
      unfold validateForm
      rw [if_neg (not_not.mpr heq), if_neg (by omega), if_pos (by simp [hat])]
    exact ⟨hv, by simp [registerSubmits, hv]⟩

/-- C9 witness: a mismatched confirmation blocks the request with the
first error message; a valid form submits. -/
theorem register_validateForm_gate_witness :
    (validateForm ⟨"a@b.c", "u", "secret", "different"⟩ =
        some "Password confirmation does not match"
      ∧ registerSubmits ⟨"a@b.c", "u", "secret", "different"⟩ = false)
    ∧ registerSubmits ⟨"a@b.c", "u", "secret", "secret"⟩ = true := by
  constructor
  · exact (register_validateForm_gate ⟨"a@b.c", "u", "secret", "different"⟩).2.1
      (by decide)
  · exact (register_validateForm_gate ⟨"a@b.c", "u", "secret", "secret"⟩).1.mpr
      ⟨rfl, by decide, by decide⟩

/-- C10: on every page `p ≥ 1` the view shows exactly the slice of
the filtered-and-sorted list from index `(p-1)*10` to `p*10`
(exclusive), hence at most 10 entries, and `totalPages` is the least
number of 10-entry pages covering the list (the ceiling of
length/10). -/
theorem historyView_pagination (l : List FEntry) (page : Nat) (hp : 1 ≤ page) :
    currentEntries l page = (l.drop ((page - 1) * entriesPerPage)).take entriesPerPage
    ∧ (currentEntries l page).length ≤ entriesPerPage
    ∧ l.length ≤ totalPages l * entriesPerPage
    ∧ totalPages l * entriesPerPage < l.length + entriesPerPage := by
  have hslice : currentEntries l page =
      (l.drop ((page - 1) * entriesPerPage)).take entriesPerPage := by
    unfold currentEntries indexOfFirstEntry indexOfLastEntry
    rw [List.drop_take]
    have h1 : page * entriesPerPage - (page * entriesPerPage - entriesPerPage) =
        entriesPerPage := by
      unfold entriesPerPage
      omega
    have h2 : page * entriesPerPage - entriesPerPage = (page - 1) * entriesPerPage := by
      cases page with
      | zero => omega
      | succ n => simp [Nat.succ_mul]
    rw [h1, h2]
  refine ⟨hslice, ?_, ?_, ?_⟩
  · rw [hslice]
    exact List.length_take_le _ _
  · unfold totalPages entriesPerPage
    omega
  · unfold totalPages entriesPerPage
    omega

/-- C10 witness: twelve entries paginate into pages of ten. -/
theorem historyView_pagination_witness :
    (currentEntries (List.replicate 12 ⟨⟨2024, 1, 1⟩, 170, 65, "a", "b", "c"⟩) 2).length ≤
      entriesPerPage
    ∧ (List.replicate 12 (⟨⟨2024, 1, 1⟩, 170, 65, "a", "b", "c"⟩ : FEntry)).length ≤
        totalPages (List.replicate 12 ⟨⟨2024, 1, 1⟩, 170, 65, "a", "b", "c"⟩) *
          entriesPerPage := by
  constructor
  · exact (historyView_pagination (List.replicate 12 ⟨⟨2024, 1, 1⟩, 170, 65, "a", "b", "c"⟩)
      2 (by omega)).2.1
  · exact (historyView_pagination (List.replicate 12 ⟨⟨2024, 1, 1⟩, 170, 65, "a", "b", "c"⟩)
      2 (by omega)).2.2.1

/-- The column value the comparator compares, as one ordered type. -/
def fieldKey (f : SortField) (e : FEntry) : ℚ :=
  match f with
  | .date => (dateKey e.date : ℚ)
  | .height => e.height
  | .weight => e.weight

lemma ite_int_le_zero (c : Prop) [Decidable c] :
    ((if c then (1 : Int) else -1) ≤ 0) ↔ ¬c := by
  by_cases h : c <;> simp [h]

/-- The comparator's non-strict order is plain column order:
ascending, `a` is not directed strictly after `b` iff `a`'s column
value is ≤ `b`'s; descending iff it is ≥. -/
lemma histRel_iff (f : SortField) (asc : Bool) (a b : FEntry) :
    histRel f asc a b ↔
      (if asc = true then fieldKey f a ≤ fieldKey f b
       else fieldKey f b ≤ fieldKey f a) := by
  cases asc <;> cases f <;>
    simp [histRel, historyCmp, fieldGt, fieldLtv, fieldKey, ite_int_le_zero, not_lt]

/-- Swapping the comparator's arguments swaps the two strict tests,
so tying is symmetric. -/
lemma cmpTies_symm (f : SortField) (a b : FEntry) :
    cmpTies f a b = cmpTies f b a := by
  cases f <;> simp [cmpTies, fieldGt, fieldLtv, Bool.and_comm]

/-- Two entries tie exactly when their column values coincide. -/
lemma cmpTies_iff (f : SortField) (a b : FEntry) :
    cmpTies f a b = true ↔ fieldKey f a = fieldKey f b := by
  cases f <;>
    simp only [cmpTies, fieldGt, fieldLtv, fieldKey, Bool.and_eq_true,
      Bool.not_eq_true', decide_eq_false_iff_not, not_lt, Nat.cast_inj] <;>
    exact ⟨fun h => le_antisymm h.1 h.2, fun h => ⟨le_of_eq h, ge_of_eq h⟩⟩

/-- A pair the comparator leaves unordered in both directions is a
tie on the column value. -/
lemma fieldKey_eq_of_histRel_both (f : SortField) (asc : Bool) (a b : FEntry)
    (h1 : histRel f asc a b) (h2 : histRel f asc b a) :
    fieldKey f a = fieldKey f b := by
  rw [histRel_iff] at h1 h2
  cases asc
  · simp at h1 h2
    exact le_antisymm h2 h1
  · simp at h1 h2
    exact le_antisymm h1 h2

/-- Two permutations of the same entries, both without strictly
inverted pairs, coincide when no two of the entries tie on the
compared column. -/
lemma sorted_unique_of_no_ties (f : SortField) (asc : Bool)
    (out₁ : List FEntry) :
    ∀ out₂ : List FEntry, List.Perm out₁ out₂ →
      List.Sorted (histRel f asc) out₁ → List.Sorted (histRel f asc) out₂ →
      List.Pairwise (fun a b => cmpTies f a b = false) out₁ → out₁ = out₂ := by
  induction out₁ with
  | nil =>
      intro out₂ hp _ _ _
      exact (List.perm_nil.mp hp.symm).symm
  | cons a t₁ ih =>
      intro out₂ hp hs₁ hs₂ hnt
      cases out₂ with
      | nil =>
          have h0 := List.perm_nil.mp hp
          simp at h0
      | cons b t₂ =>
          have hab : a = b := by
            by_contra hne
            have ha2 : a ∈ b :: t₂ := hp.mem_iff.mp (List.mem_cons_self a t₁)
            have hat2 : a ∈ t₂ := by
              rcases List.mem_cons.mp ha2 with h | h
              · exact absurd h hne
              · exact h
            have hb1 : b ∈ a :: t₁ := hp.symm.mem_iff.mp (List.mem_cons_self b t₂)
            have hbt1 : b ∈ t₁ := by
              rcases List.mem_cons.mp hb1 with h | h
              · exact absurd h.symm hne
              · exact h
            have h1 : histRel f asc a b := (List.sorted_cons.mp hs₁).1 b hbt1
            have h2 : histRel f asc b a := (List.sorted_cons.mp hs₂).1 a hat2
            have htrue : cmpTies f a b = true :=
              (cmpTies_iff f a b).mpr (fieldKey_eq_of_histRel_both f asc a b h1 h2)
            have hfalse : cmpTies f a b = false := (List.pairwise_cons.mp hnt).1 b hbt1
            rw [htrue] at hfalse
            cases hfalse
          subst hab
          have ht : t₁ = t₂ := ih t₂ hp.cons_inv (List.sorted_cons.mp hs₁).2
            (List.sorted_cons.mp hs₂).2 (List.pairwise_cons.mp hnt).2
          rw [ht]

/-- C6 counterexample: two fetched entries tie on height, dates
2024-01-02 then 2024-01-01.  Sorting by height ascending admits the
fetch-order output — whose tie is not in date-ascending order — as
well as the reversed output, so neither the claimed date-ascending
tie-break nor the claimed determinism is guaranteed by the code. -/
theorem listEntries_tie_order_counterexample :
    filteredAndSortedOutcome
      [⟨⟨2024, 1, 2⟩, 170, 65, "a", "b", "c"⟩,
        ⟨⟨2024, 1, 1⟩, 170, 66, "d", "e", "f"⟩] none .height true
      [⟨⟨2024, 1, 2⟩, 170, 65, "a", "b", "c"⟩,
        ⟨⟨2024, 1, 1⟩, 170, 66, "d", "e", "f"⟩]
    ∧ ¬ tiesByDateAsc .height
        [⟨⟨2024, 1, 2⟩, 170, 65, "a", "b", "c"⟩,
          ⟨⟨2024, 1, 1⟩, 170, 66, "d", "e", "f"⟩]
    ∧ filteredAndSortedOutcome
        [⟨⟨2024, 1, 2⟩, 170, 65, "a", "b", "c"⟩,
          ⟨⟨2024, 1, 1⟩, 170, 66, "d", "e", "f"⟩] none .height true
        [⟨⟨2024, 1, 1⟩, 170, 66, "d", "e", "f"⟩,
          ⟨⟨2024, 1, 2⟩, 170, 65, "a", "b", "c"⟩]
    ∧ ([(⟨⟨2024, 1, 2⟩, 170, 65, "a", "b", "c"⟩ : FEntry),
          ⟨⟨2024, 1, 1⟩, 170, 66, "d", "e", "f"⟩] ≠
        [⟨⟨2024, 1, 1⟩, 170, 66, "d", "e", "f"⟩,
          ⟨⟨2024, 1, 2⟩, 170, 65, "a", "b", "c"⟩]) := by
  decide

/-- C6 (amended): the view lists exactly the entries matching the
date filter with no pair strictly inverted on the requested column
and direction; such an output always exists, and when no two
filtered entries tie on the sort column it is unique — the
deterministic column-sorted order; the relative order of entries
that tie on the sort column, however, is implementation-defined
rather than date-ascending. -/
theorem listEntries_sorted_amended (entries : List FEntry) (flt : Option CalDate)
    (f : SortField) (asc : Bool) :
    (∃ out, filteredAndSortedOutcome entries flt f asc out)
    ∧ (∀ out, filteredAndSortedOutcome entries flt f asc out →
        List.Perm out (entries.filter (matchesDateFilter flt))
        ∧ List.Sorted (histRel f asc) out)
    ∧ (List.Pairwise (fun a b => cmpTies f a b = false)
          (entries.filter (matchesDateFilter flt)) →
        ∀ out₁ out₂, filteredAndSortedOutcome entries flt f asc out₁ →
          filteredAndSortedOutcome entries flt f asc out₂ → out₁ = out₂) := by
  refine ⟨?_, fun out h => h, ?_⟩
  · haveI htot : IsTotal FEntry (histRel f asc) := by
      constructor
      intro a b
      rw [histRel_iff, histRel_iff]
      cases asc <;> simp <;> exact le_total _ _
    haveI htrans : IsTrans FEntry (histRel f asc) := by
      constructor
      intro a b c hab hbc
      rw [histRel_iff] at hab hbc ⊢
      cases asc <;> simp only [Bool.false_eq_true, if_false, if_true] at hab hbc ⊢
      · exact le_trans hbc hab
      · exact le_trans hab hbc
    exact ⟨(entries.filter (matchesDateFilter flt)).insertionSort (histRel f asc),
      List.perm_insertionSort _ _, List.sorted_insertionSort _ _⟩
  · intro hnt out₁ out₂ h₁ h₂
    have hsymm : ∀ {x y : FEntry}, cmpTies f x y = false → cmpTies f y x = false := by
      intro x y hxy
      rw [cmpTies_symm f y x]
      exact hxy
    have hnt₁ : List.Pairwise (fun a b => cmpTies f a b = false) out₁ :=
      (List.Perm.pairwise_iff hsymm h₁.1).mpr hnt
    exact sorted_unique_of_no_ties f asc out₁ out₂ (h₁.1.trans h₂.1.symm) h₁.2 h₂.2 hnt₁

/-- C6 witness: the amended contract at a concrete tie-free
snapshot. -/
theorem listEntries_sorted_amended_witness :
    (List.Perm
        [(⟨⟨2024, 1, 1⟩, 170, 65, "a", "b", "c"⟩ : FEntry),
          ⟨⟨2024, 1, 2⟩, 180, 66, "d", "e", "f"⟩]
        ([⟨⟨2024, 1, 1⟩, 170, 65, "a", "b", "c"⟩,
          ⟨⟨2024, 1, 2⟩, 180, 66, "d", "e", "f"⟩].filter (matchesDateFilter none))
      ∧ List.Sorted (histRel .height true)
          [(⟨⟨2024, 1, 1⟩, 170, 65, "a", "b", "c"⟩ : FEntry),
            ⟨⟨2024, 1, 2⟩, 180, 66, "d", "e", "f"⟩])
    ∧ [(⟨⟨2024, 1, 1⟩, 170, 65, "a", "b", "c"⟩ : FEntry),
        ⟨⟨2024, 1, 2⟩, 180, 66, "d", "e", "f"⟩] =
      [⟨⟨2024, 1, 1⟩, 170, 65, "a", "b", "c"⟩,
        ⟨⟨2024, 1, 2⟩, 180, 66, "d", "e", "f"⟩] := by
  constructor
  · exact (listEntries_sorted_amended
      [⟨⟨2024, 1, 1⟩, 170, 65, "a", "b", "c"⟩, ⟨⟨2024, 1, 2⟩, 180, 66, "d", "e", "f"⟩]
      none .height true).2.1
      [⟨⟨2024, 1, 1⟩, 170, 65, "a", "b", "c"⟩, ⟨⟨2024, 1, 2⟩, 180, 66, "d", "e", "f"⟩]
      (by decide)
  · exact (listEntries_sorted_amended
      [⟨⟨2024, 1, 1⟩, 170, 65, "a", "b", "c"⟩, ⟨⟨2024, 1, 2⟩, 180, 66, "d", "e", "f"⟩]
      none .height true).2.2 (by decide)
      [⟨⟨2024, 1, 1⟩, 170, 65, "a", "b", "c"⟩, ⟨⟨2024, 1, 2⟩, 180, 66, "d", "e", "f"⟩]
      [⟨⟨2024, 1, 1⟩, 170, 65, "a", "b", "c"⟩, ⟨⟨2024, 1, 2⟩, 180, 66, "d", "e", "f"⟩]
      (by decide) (by decide)
